import Mathlib

set_option linter.unusedVariables false

/-!
Shallow embedding of `src/AMSWorkflow/ams/ams_jobs.py` (AMS job descriptions).
Python values appearing in CLI argument lists are modelled by `PyVal`, Python
exceptions by `PyError`, and Python dict-update semantics by `dictSet`.
Fallible Python constructors and methods return `Except PyError`.
Filesystem existence checks are passed in as an explicit predicate, and the
data-store / broker boundaries are modelled at their interface.
-/

/-- Python values that occur in CLI argument lists and job dictionaries. -/
inductive PyVal where
  | str (s : String)
  | int (n : Int)
  | bool (b : Bool)
  | none
  deriving DecidableEq, Repr

/-- Python `str()` on the values that appear in CLI argument lists
(`constuct_cli_cmd` stringifies every key and value). -/
def PyVal.pyStr : PyVal → String
  | .str s => s
  | .int n => toString n
  | .bool b => if b then "True" else "False"
  | .none => "None"

/-- Python exceptions raised by the modelled code paths. -/
inductive PyError where
  | attributeError (msg : String)
  | typeError (msg : String)
  | runtimeError (msg : String)
  | assertionError (msg : String)
  | keyError (k : String)
  deriving DecidableEq, Repr

/-- The Python exception class name of a modelled error. -/
def PyError.typeName : PyError → String
  | .attributeError _ => "AttributeError"
  | .typeError _ => "TypeError"
  | .runtimeError _ => "RuntimeError"
  | .assertionError _ => "AssertionError"
  | .keyError _ => "KeyError"

/-- Whether an `Except` result is a success. -/
def exOk {α : Type} : Except PyError α → Bool
  | Except.ok _ => true
  | Except.error _ => false

/-- Python `x is not None` on an optional value. -/
def pyIsNotNone {α : Type} : Option α → Bool
  | Option.none => false
  | some _ => true

/-- Embeds an optional Python string as a `PyVal`. -/
def optStrVal : Option String → PyVal
  | Option.none => PyVal.none
  | some s => PyVal.str s

/-- Embeds an optional Python bool as a `PyVal`. -/
def optBoolVal : Option Bool → PyVal
  | Option.none => PyVal.none
  | some b => PyVal.bool b

/-- Embeds an optional Python int as a `PyVal`. -/
def optIntVal : Option Int → PyVal
  | Option.none => PyVal.none
  | some n => PyVal.int n

/-- Python dict assignment `d[k] = v`: overwrite in place when the key exists,
otherwise append; insertion order is preserved. -/
def dictSet (d : List (String × PyVal)) (k : String) (v : PyVal) : List (String × PyVal) :=
  if d.any (fun kv => kv.1 == k) then
    d.map (fun kv => if kv.1 == k then (k, v) else kv)
  else d ++ [(k, v)]

/-- `constuct_cli_cmd(executable, *args, **kwargs)` from `ams_jobs.py`:
start from `[executable]`, append `str(k)` and `str(v)` for each keyword pair
in order, then `str(a)` for each positional argument in order. Keyword keys
are strings, so `str(k) = k`. -/
def constuct_cli_cmd (executable : String) (args : List PyVal)
    (kwargs : List (String × PyVal)) : List String :=
  let command := [executable]
  let command := kwargs.foldl (fun cmd kv => (cmd ++ [kv.1]) ++ [kv.2.pyStr]) command
  args.foldl (fun cmd a => cmd ++ [a.pyStr]) command

/-- The `AMSJobResources` dataclass: `nodes`, `tasks_per_node`, `cores_per_task`
(default 1), `exclusive` (Optional, default True), `gpus_per_task`
(Optional, default 0). -/
structure AMSJobResources where
  nodes : Int
  tasks_per_node : Int
  cores_per_task : Int
  exclusive : Option Bool
  gpus_per_task : Option Int
  deriving DecidableEq, Repr

/-- `AMSJobResources.to_dict`: the field-name → value dictionary built from
`dataclasses.fields`, in declaration order. -/
def AMSJobResources.to_dict (r : AMSJobResources) : List (String × PyVal) :=
  [("nodes", PyVal.int r.nodes),
   ("tasks_per_node", PyVal.int r.tasks_per_node),
   ("cores_per_task", PyVal.int r.cores_per_task),
   ("exclusive", optBoolVal r.exclusive),
   ("gpus_per_task", optIntVal r.gpus_per_task)]

/-- Reads a required int-typed keyword of `AMSJobResources(**d)`. -/
def reqIntField (d : List (String × PyVal)) (k : String) : Except PyError Int :=
  match d.lookup k with
  | some (PyVal.int n) => Except.ok n
  | some _ => Except.error (PyError.typeError k)
  | Option.none => Except.error (PyError.typeError k)

/-- Reads an optional int-typed keyword of `AMSJobResources(**d)` with default. -/
def optIntField (d : List (String × PyVal)) (k : String) (dflt : Int) : Except PyError Int :=
  match d.lookup k with
  | some (PyVal.int n) => Except.ok n
  | Option.none => Except.ok dflt
  | some _ => Except.error (PyError.typeError k)

/-- Reads an `Optional[bool]` keyword of `AMSJobResources(**d)` with default. -/
def optOptBoolField (d : List (String × PyVal)) (k : String) (dflt : Option Bool) :
    Except PyError (Option Bool) :=
  match d.lookup k with
  | some (PyVal.bool b) => Except.ok (some b)
  | some PyVal.none => Except.ok Option.none
  | Option.none => Except.ok dflt
  | some _ => Except.error (PyError.typeError k)

/-- Reads an `Optional[int]` keyword of `AMSJobResources(**d)` with default. -/
def optOptIntField (d : List (String × PyVal)) (k : String) (dflt : Option Int) :
    Except PyError (Option Int) :=
  match d.lookup k with
  | some (PyVal.int n) => Except.ok (some n)
  | some PyVal.none => Except.ok Option.none
  | Option.none => Except.ok dflt
  | some _ => Except.error (PyError.typeError k)

/-- `AMSJobResources(**d)`: keyword binding of the dataclass constructor.
Unknown keywords raise a `TypeError`; missing required keywords likewise.
The Python dataclass performs no runtime type validation; this model restricts
reconstruction to correctly-typed dictionaries, which covers every dictionary
`to_dict` can produce. -/
def AMSJobResources.of_dict (d : List (String × PyVal)) : Except PyError AMSJobResources :=
  if d.all (fun kv => kv.1 == "nodes" || kv.1 == "tasks_per_node"
      || kv.1 == "cores_per_task" || kv.1 == "exclusive" || kv.1 == "gpus_per_task") then do
    let n ← reqIntField d "nodes"
    let t ← reqIntField d "tasks_per_node"
    let c ← optIntField d "cores_per_task" 1
    let e ← optOptBoolField d "exclusive" (some true)
    let g ← optOptIntField d "gpus_per_task" (some 0)
    Except.ok { nodes := n, tasks_per_node := t, cores_per_task := c,
                exclusive := e, gpus_per_task := g }
  else
    Except.error (PyError.typeError "unexpected keyword argument")

/-- The state of an `AMSJob` after `__init__` has run. -/
structure AMSJob where
  name : String
  executable : String
  environ : Option (List (PyVal × PyVal))
  resources : Option AMSJobResources
  stdout : Option String
  stderr : Option String
  ams_log : Bool
  is_mpi : Bool
  cli_args : List PyVal
  cli_kwargs : List (String × PyVal)
  deriving DecidableEq, Repr

/-- Possible runtime shapes of a value assigned to `AMSJob.environ`. -/
inductive EnvValue where
  | pynone
  | pydict (entries : List (PyVal × PyVal))
  | osEnviron (entries : List (String × String))
  | other (typeName : String)
  deriving DecidableEq, Repr

/-- The `environ` property setter: an `os.environ`-like mapping is copied into
a dict; a dict or `None` is stored as-is; any other type raises
`RuntimeError("Unknwon type ... to set job environment")`. -/
def environ_set : EnvValue → Except PyError (Option (List (PyVal × PyVal)))
  | EnvValue.osEnviron es =>
      Except.ok (some (es.map (fun p => (PyVal.str p.1, PyVal.str p.2))))
  | EnvValue.pydict es => Except.ok (some es)
  | EnvValue.pynone => Except.ok Option.none
  | EnvValue.other t =>
      Except.error (PyError.runtimeError ("Unknwon type " ++ t ++ " to set job environment"))

/-- Decides whether an `EnvValue` is accepted by the environ setter:
`None`, any dict, or an `os.environ`-like mapping (amended claim C8). -/
def acceptedEnvShape : EnvValue → Bool
  | EnvValue.other _ => false
  | _ => true

/-- Claim C8 predicate, as the claim states it: the supplied value is null or a
string-to-string mapping. -/
def isNullOrStrStrMapping : EnvValue → Bool
  | EnvValue.pynone => true
  | EnvValue.pydict es => es.all (fun p =>
      (match p.1 with | PyVal.str _ => true | _ => false)
      && (match p.2 with | PyVal.str _ => true | _ => false))
  | EnvValue.osEnviron _ => true
  | EnvValue.other _ => false

/-- The resources handling of `AMSJob.__init__`: a dict-valued argument is
converted through `AMSJobResources(**resources)`, other values are stored
as-is. -/
def resources_arg (resources : Option (AMSJobResources ⊕ List (String × PyVal))) :
    Except PyError (Option AMSJobResources) :=
  match resources with
  | Option.none => Except.ok Option.none
  | some (Sum.inl r) => Except.ok (some r)
  | some (Sum.inr d) => (AMSJobResources.of_dict d).map some

/-- `AMSJob.__init__`: stores the scalar fields, converts a dict-valued
`resources` through `AMSJobResources(**resources)`, runs `environ` through the
property setter, and replaces `None` `cli_args` / `cli_kwargs` by empty
containers. -/
def AMSJob.init (name executable : String) (environ : EnvValue)
    (resources : Option (AMSJobResources ⊕ List (String × PyVal)))
    (stdout stderr : Option String) (ams_log is_mpi : Bool)
    (cli_args : Option (List PyVal)) (cli_kwargs : Option (List (String × PyVal))) :
    Except PyError AMSJob := do
  let res ← resources_arg resources
  let env ← environ_set environ
  Except.ok {
    name := name, executable := executable, environ := env, resources := res,
    stdout := stdout, stderr := stderr, ams_log := ams_log, is_mpi := is_mpi,
    cli_args := cli_args.getD [], cli_kwargs := cli_kwargs.getD [] }

/-- The dictionary produced by `AMSJob.to_dict` (fixed string keys are modelled
as structure fields). -/
structure AMSJobDict where
  name : String
  executable : String
  stdout : Option String
  stderr : Option String
  cli_args : List PyVal
  cli_kwargs : List (String × PyVal)
  resources : List (String × PyVal)
  deriving DecidableEq, Repr

/-- `AMSJob.to_dict`: serializes name, executable, stdout, stderr, cli_args,
cli_kwargs and `self._resources.to_dict()`. It dereferences `_resources`
unconditionally, so a `None` resource spec raises an `AttributeError`.
`environ`, `ams_log` and `is_mpi` are not serialized. -/
def AMSJob.to_dict (j : AMSJob) : Except PyError AMSJobDict :=
  match j.resources with
  | Option.none =>
      Except.error (PyError.attributeError "NoneType object has no attribute to_dict")
  | some r => Except.ok {
      name := j.name, executable := j.executable, stdout := j.stdout, stderr := j.stderr,
      cli_args := j.cli_args, cli_kwargs := j.cli_kwargs, resources := r.to_dict }

/-- `AMSJob.from_dict`: `cls(**_dict)`. The constructor keywords absent from
the dictionary (`environ`, `ams_log`, `is_mpi`) take their declared defaults
`{}`, `False`, `False`. -/
def AMSJob.from_dict (d : AMSJobDict) : Except PyError AMSJob :=
  AMSJob.init d.name d.executable (EnvValue.pydict []) (some (Sum.inr d.resources))
    d.stdout d.stderr false false (some d.cli_args) (some d.cli_kwargs)

/-- Serialize then deserialize an `AMSJob`. -/
def AMSJob.roundtrip (j : AMSJob) : Except PyError AMSJob :=
  (AMSJob.to_dict j).bind AMSJob.from_dict

/-- The scheduler-boundary submission spec produced by `JobspecV1.from_command`
plus the attributes `to_flux_jobspec` sets on it. -/
structure FluxJobspec where
  command : List String
  num_tasks : Int
  num_nodes : Int
  cores_per_task : Int
  gpus_per_task : Option Int
  exclusive : Option Bool
  shell_options : List (String × String)
  stdout : Option String
  stderr : Option String
  environment : List (PyVal × PyVal)
  cwd : String
  deriving DecidableEq, Repr

/-- `AMSJob.to_flux_jobspec`: builds the submission spec from the job's
resources and command. A `None` resource spec raises an `AttributeError` at
the first attribute access (`tasks_per_node`); `dict(self.environ)` with a
`None` environment raises a `TypeError`. The MPI guard in the source is
`if self._is_mpi is not None`; `_is_mpi` is a bool, so the wrapped option is
always `some` and the guard always holds. -/
def AMSJob.to_flux_jobspec (cwd : String) (j : AMSJob) : Except PyError FluxJobspec :=
  match j.resources with
  | Option.none =>
      Except.error (PyError.attributeError "NoneType object has no attribute tasks_per_node")
  | some res =>
    let spec : FluxJobspec := {
      command := constuct_cli_cmd j.executable j.cli_args j.cli_kwargs,
      num_tasks := res.tasks_per_node * res.nodes,
      num_nodes := res.nodes,
      cores_per_task := res.cores_per_task,
      gpus_per_task := res.gpus_per_task,
      exclusive := res.exclusive,
      shell_options := [], stdout := Option.none, stderr := Option.none,
      environment := [], cwd := "" }
    let spec := if pyIsNotNone (some j.is_mpi)
      then { spec with shell_options := spec.shell_options ++ [("mpi", "spectrum")] }
      else spec
    let spec := if pyIsNotNone res.gpus_per_task
      then { spec with shell_options := spec.shell_options ++ [("gpu-affinity", "per-task")] }
      else spec
    let spec := { spec with stdout := j.stdout, stderr := j.stderr }
    let spec := if j.stdout = Option.none then { spec with stdout := some "ams_test.out" } else spec
    let spec := if j.stderr = Option.none then { spec with stderr := some "ams_test.err" } else spec
    match j.environ with
    | Option.none => Except.error (PyError.typeError "NoneType object is not iterable")
    | some env => Except.ok { spec with environment := env, cwd := cwd }

/-- Projects the shell options out of a submission-spec result (empty on error). -/
def specShellOptions (e : Except PyError FluxJobspec) : List (String × String) :=
  match e with
  | Except.ok s => s.shell_options
  | Except.error _ => []

/-- A JSON number in a model record: the store keeps `threshold` either as an
int or as a float; no arithmetic is ever performed on it. -/
inductive JNum where
  | int (n : Int)
  | float (q : Rat)
  deriving DecidableEq, Repr

/-- A model record returned by `store.search(...)`: the fields
`_generate_ams_object` reads (`uq_type`, `file`, `threshold`). -/
structure ModelRecord where
  uq_type : String
  file : String
  threshold : JNum
  deriving DecidableEq, Repr

/-- The `AMSDataStore` boundary as consumed by `ams_jobs.py`: a root path, the
candidate path, and `search` restricted to `entry="models"`,
`version="latest"` (only `domain_name` varies at the call sites). -/
structure AMSDataStore where
  root_path : String
  candidate_path : String
  search : String → List ModelRecord

/-- The `db` field of the AMS-Objects artifact. -/
inductive AMSDb where
  | fs (fs_path : String) (dbType : String)
  | rmq (rmq_config : String) (dbType : String) (update_surrogate : Bool)
  deriving DecidableEq, Repr

/-- One `ml_models` entry of the AMS-Objects artifact. -/
structure MLModelEntry where
  uq_type : String
  model_path : String
  uq_aggregate : String
  threshold : JNum
  db_label : String
  deriving DecidableEq, Repr

/-- The AMS-Objects artifact assembled by `AMSDomainJob._generate_ams_object`. -/
structure AMSObject where
  db : AMSDb
  ml_models : List (String × MLModelEntry)
  domain_models : List (String × String)
  deriving DecidableEq, Repr

/-- `AMSDomainJob._generate_ams_objects_store`: filesystem-backed `db` entry
(candidate path, or the stage directory when set) without a broker
configuration, broker-backed entry otherwise. The broker connection descriptor
`rmq.to_dict(AMSlib=True)` is modelled as an opaque string. -/
def generate_ams_objects_store (store : AMSDataStore) (rmq : Option String)
    (stage_dir : Option String) : AMSDb :=
  match rmq with
  | Option.none =>
      match stage_dir with
      | Option.none => AMSDb.fs store.candidate_path "hdf5"
      | some d => AMSDb.fs d "hdf5"
  | some cfg => AMSDb.rmq cfg "rmq" false

/-- The key `model_i` given to the i-th domain's model entry. -/
def model_key (i : Nat) : String := "model_" ++ toString i

/-- The `ml_models` entry for one domain: the placeholder
`uq_type="random"`, `model_path=""`, `threshold=1` when the store returned no
model, otherwise the fields of the first (latest) returned model. -/
def mk_model_entry (name : String) (models : List ModelRecord) : MLModelEntry :=
  match models with
  | [] => { uq_type := "random", model_path := "", uq_aggregate := "mean",
            threshold := JNum.int 1, db_label := name }
  | m :: _ => { uq_type := m.uq_type, model_path := m.file, uq_aggregate := "mean",
                threshold := m.threshold, db_label := name }

/-- `AMSDomainJob._generate_ams_object`: the `db` entry plus, for each domain
name in order, an `ml_models` entry keyed `model_i` and a `domain_models`
binding of the domain name to that key. -/
def generate_ams_object (store : AMSDataStore) (rmq : Option String)
    (stage_dir : Option String) (domain_names : List String) : AMSObject :=
  { db := generate_ams_objects_store store rmq stage_dir,
    ml_models := domain_names.enum.map
      (fun p => (model_key p.1, mk_model_entry p.2 (store.search p.2))),
    domain_models := domain_names.enum.map (fun p => (p.2, model_key p.1)) }

/-- `AMSStageJob.__init__`: appends `--store`/`--no-store`, sets the
destination, persistent path, db-type and policy flags, then — only after those
flags are assembled — asserts that a supplied pruning module path exists and
that a pruning class accompanies it, and finally delegates to
`AMSJob.__init__` with name `AMSStageJob` and executable `AMSDBStage`. -/
def AMSStageJob_init (fsExists : String → Bool)
    (resources : AMSJobResources ⊕ List (String × PyVal))
    (dest persistent_db_path : String) (store : Bool) (db_type policy : String)
    (prune_module_path prune_class : Option String)
    (environ : EnvValue) (stdout stderr : Option String)
    (cli_args : List PyVal) (cli_kwargs : List (String × PyVal)) :
    Except PyError AMSJob := do
  let xargs := cli_args ++ [PyVal.str (if store then "--store" else "--no-store")]
  let kw := dictSet cli_kwargs "--dest" (PyVal.str dest)
  let kw := dictSet kw "--persistent-db-path" (PyVal.str persistent_db_path)
  let kw := dictSet kw "--db-type" (PyVal.str db_type)
  let kw := dictSet kw "--policy" (PyVal.str policy)
  let kw ← match prune_module_path with
    | Option.none => Except.ok kw
    | some p =>
        if fsExists p then
          match prune_class with
          | Option.none =>
              Except.error (PyError.assertionError
                "When defining a pruning module please define the class")
          | some c =>
              Except.ok (dictSet (dictSet kw "--load" (PyVal.str p)) "--class" (PyVal.str c))
        else
          Except.error (PyError.assertionError "Module path to user pruner does not exist")
  AMSJob.init "AMSStageJob" "AMSDBStage" environ (some resources) stdout stderr
    false false (some xargs) (some kw)

/-- `AMSFSStageJob.__init__`: adds the filesystem-source flags then delegates
to `AMSStageJob.__init__` (policy takes its default `"process"`). -/
def AMSFSStageJob_init (fsExists : String → Bool)
    (resources : AMSJobResources ⊕ List (String × PyVal))
    (dest persistent_db_path src : String) (store : Bool)
    (db_type pattern src_type : String)
    (prune_module_path prune_class : Option String)
    (environ : EnvValue) (stdout stderr : Option String)
    (cli_args : List PyVal) (cli_kwargs : List (String × PyVal)) :
    Except PyError AMSJob :=
  let kw := dictSet cli_kwargs "--src" (PyVal.str src)
  let kw := dictSet kw "--src-type" (PyVal.str src_type)
  let kw := dictSet kw "--pattern" (PyVal.str pattern)
  let kw := dictSet kw "--mechanism" (PyVal.str "fs")
  AMSStageJob_init fsExists resources dest persistent_db_path store db_type "process"
    prune_module_path prune_class environ stdout stderr cli_args kw

/-- `AMSNetworkStageJob.__init__`: adds the broker-source flags (and the
optional `--update-rmq-models` positional) then delegates to
`AMSStageJob.__init__` (policy takes its default `"process"`). -/
def AMSNetworkStageJob_init (fsExists : String → Bool)
    (resources : AMSJobResources ⊕ List (String × PyVal))
    (dest persistent_db_path creds : String) (store : Bool)
    (db_type : String) (update_models : Bool)
    (prune_module_path prune_class : Option String)
    (environ : EnvValue) (stdout stderr : Option String)
    (cli_args : List PyVal) (cli_kwargs : List (String × PyVal)) :
    Except PyError AMSJob :=
  let xargs := cli_args ++ (if update_models then [PyVal.str "--update-rmq-models"] else [])
  let kw := dictSet cli_kwargs "--creds" (PyVal.str creds)
  let kw := dictSet kw "--mechanism" (PyVal.str "network")
  AMSStageJob_init fsExists resources dest persistent_db_path store db_type "process"
    prune_module_path prune_class environ stdout stderr xargs kw

/-- `AMSFSTempStageJob.__init__`: assembles its fixed staging flags, then — when
a pruning module path is supplied — asserts only that the path exists; unlike
`AMSStageJob.__init__` it never checks `prune_class`, and stores it (possibly
`None`) under `--class`. Delegates to `AMSJob.__init__` with name `AMSStage`. -/
def AMSFSTempStageJob_init (fsExists : String → Bool)
    (store_dir src_dir dest_dir : String)
    (resources : AMSJobResources ⊕ List (String × PyVal))
    (environ : EnvValue) (stdout stderr : Option String)
    (prune_module_path prune_class : Option String)
    (cli_args : List PyVal) (cli_kwargs : List (String × PyVal)) :
    Except PyError AMSJob := do
  let xargs := cli_args ++ [PyVal.str "--store"]
  let kw := dictSet cli_kwargs "--dest" (PyVal.str dest_dir)
  let kw := dictSet kw "--src" (PyVal.str src_dir)
  let kw := dictSet kw "--pattern" (PyVal.str "*.h5")
  let kw := dictSet kw "--db-type" (PyVal.str "dhdf5")
  let kw := dictSet kw "--mechanism" (PyVal.str "fs")
  let kw := dictSet kw "--policy" (PyVal.str "process")
  let kw := dictSet kw "--persistent-db-path" (PyVal.str store_dir)
  let kw := dictSet kw "--src" (PyVal.str src_dir)
  let kw ← match prune_module_path with
    | Option.none => Except.ok kw
    | some p =>
        if fsExists p then
          Except.ok (dictSet (dictSet kw "--load" (PyVal.str p)) "--class" (optStrVal prune_class))
        else
          Except.error (PyError.assertionError "Module path to user pruner does not exist")
  AMSJob.init "AMSStage" "AMSDBStage" environ (some resources) stdout stderr
    false false (some xargs) (some kw)

/-- A token of a pre-parsed Python format string: literal text or a
replacement field `\x7bKEY\x7d`. -/
inductive FmtTok where
  | lit (s : String)
  | field (k : String)
  deriving DecidableEq, Repr

/-- Python `s.format(**ctx)` on a pre-parsed format string: literals are kept,
replacement fields are looked up in the context, and an unknown field raises
`KeyError`. -/
def pyFormat : List FmtTok → List (String × String) → Except PyError String
  | [], ctx => Except.ok ""
  | FmtTok.lit s :: rest, ctx => (pyFormat rest ctx).map (fun r => s ++ r)
  | FmtTok.field k :: rest, ctx =>
      match ctx.lookup k with
      | some v => (pyFormat rest ctx).map (fun r => v ++ r)
      | Option.none => Except.error (PyError.keyError k)

/-- Total variant of `pyFormat` used to state what a successful substitution
produced (empty string on the error branch, which success rules out). -/
def pyFormatD (t : List FmtTok) (ctx : List (String × String)) : String :=
  match pyFormat t ctx with
  | Except.ok s => s
  | Except.error _ => ""

/-- Whether a format string references a field absent from the context. -/
def referencesUnknown (t : List FmtTok) (ctx : List (String × String)) : Bool :=
  t.any (fun tok => match tok with
    | FmtTok.field k => (ctx.lookup k).isNone
    | FmtTok.lit _ => false)

/-- A CLI keyword value in an ML job description: a string (a format template)
or a non-string value, which the factory leaves untouched. -/
inductive CliVal where
  | s (t : List FmtTok)
  | v (x : PyVal)
  deriving DecidableEq, Repr

/-- The substitution `AMSMLJob.from_descr` applies to one keyword value. -/
def substVal (ctx : List (String × String)) : CliVal → PyVal
  | CliVal.s t => PyVal.str (pyFormatD t ctx)
  | CliVal.v x => x

/-- `AMSJob.generate_formatting(store)`: the template context, binding exactly
`AMS_STORE_PATH` to the store root path. -/
def generate_formatting (store : AMSDataStore) : List (String × String) :=
  [("AMS_STORE_PATH", store.root_path)]

/-- Formats every positional argument in order; the first unknown field raises. -/
def formatArgs : List (List FmtTok) → List (String × String) → Except PyError (List PyVal)
  | [], ctx => Except.ok []
  | t :: rest, ctx => do
      let s ← pyFormat t ctx
      let more ← formatArgs rest ctx
      Except.ok (PyVal.str s :: more)

/-- Formats every string-valued keyword value in order (the `isinstance(v, str)`
check skips non-strings); the first unknown field raises. -/
def formatKwargs : List (String × CliVal) → List (String × String) →
    Except PyError (List (String × PyVal))
  | [], ctx => Except.ok []
  | (k, CliVal.s t) :: rest, ctx => do
      let s ← pyFormat t ctx
      let more ← formatKwargs rest ctx
      Except.ok ((k, PyVal.str s) :: more)
  | (k, CliVal.v x) :: rest, ctx => do
      let more ← formatKwargs rest ctx
      Except.ok ((k, x) :: more)

/-- The `cli` sub-dictionary of an ML job description. -/
structure MLCliDescr where
  executable : String
  stdout : Option String
  stderr : Option String
  cli_args : Option (List (List FmtTok))
  cli_kwargs : Option (List (String × CliVal))
  deriving DecidableEq, Repr

/-- An ML job description as read by `AMSMLJob.from_descr`. -/
structure MLDescr where
  domain_name : String
  name : String
  cli : MLCliDescr
  resources : List (String × PyVal)
  ams_log : Option Bool
  deriving DecidableEq, Repr

/-- An `AMSMLJob`: a domain plus the underlying `AMSJob` state. -/
structure AMSMLJob where
  domain : String
  job : AMSJob
  deriving DecidableEq, Repr

/-- The keyword-formatting step of `AMSMLJob.from_descr`: a `None` keyword
dictionary is passed through, otherwise its string values are formatted. -/
def kwargs_step (ctx : List (String × String)) :
    Option (List (String × CliVal)) → Except PyError (Option (List (String × PyVal)))
  | Option.none => Except.ok Option.none
  | some kvs => (formatKwargs kvs ctx).map some

/-- The positional-formatting step of `AMSMLJob.from_descr`: a `None` argument
list is passed through, otherwise every argument is formatted. -/
def args_step (ctx : List (String × String)) :
    Option (List (List FmtTok)) → Except PyError (Option (List PyVal))
  | Option.none => Except.ok Option.none
  | some ts => (formatArgs ts ctx).map some

/-- `AMSMLJob.from_descr`: builds the template context from the store,
reconstructs the resources, formats the string-valued keyword values and all
positional arguments against the context, and constructs the job with an
explicit `environ=None`. -/
def AMSMLJob.from_descr (store : AMSDataStore) (descr : MLDescr) :
    Except PyError AMSMLJob := do
  let formatting := generate_formatting store
  let resources ← AMSJobResources.of_dict descr.resources
  let cli_kwargs ← kwargs_step formatting descr.cli.cli_kwargs
  let cli_args ← args_step formatting descr.cli.cli_args
  let job ← AMSJob.init descr.name descr.cli.executable EnvValue.pynone
    (some (Sum.inl resources)) descr.cli.stdout descr.cli.stderr
    (descr.ams_log.getD false) false cli_args cli_kwargs
  Except.ok { domain := descr.domain_name, job := job }

/-- A small valid resource spec used by the concrete witnesses. -/
def rW : AMSJobResources :=
  { nodes := 1, tasks_per_node := 2, cores_per_task := 3,
    exclusive := some true, gpus_per_task := some 0 }

/-- A job with every serialized field populated and `is_mpi = true`. -/
def jC1 : AMSJob :=
  { name := "physics", executable := "sim", environ := some [],
    resources := some rW, stdout := some "o.txt", stderr := some "e.txt",
    ams_log := true, is_mpi := true,
    cli_args := [PyVal.str "a"], cli_kwargs := [("--x", PyVal.int 1)] }

/-- A plain job used by the round-trip witness. -/
def jW : AMSJob :=
  { name := "j", executable := "run", environ := some [],
    resources := some rW, stdout := Option.none, stderr := Option.none,
    ams_log := false, is_mpi := false, cli_args := [], cli_kwargs := [] }

/-- A non-MPI job with a valid resource spec and environment. -/
def jC2 : AMSJob :=
  { name := "phys", executable := "sim", environ := some [],
    resources := some rW, stdout := Option.none, stderr := Option.none,
    ams_log := false, is_mpi := false, cli_args := [], cli_kwargs := [] }

/-- A job whose resource spec is `None`. -/
def jC5 : AMSJob :=
  { name := "n", executable := "x", environ := some [],
    resources := Option.none, stdout := Option.none, stderr := Option.none,
    ams_log := false, is_mpi := false, cli_args := [], cli_kwargs := [] }

/-- A job with a valid resource spec but a `None` environment. -/
def jC9 : AMSJob :=
  { name := "ml", executable := "train", environ := Option.none,
    resources := some rW, stdout := Option.none, stderr := Option.none,
    ams_log := false, is_mpi := false, cli_args := [], cli_kwargs := [] }

/-- A registered model record used by the C4 witness. -/
def mW : ModelRecord := { uq_type := "faiss", file := "m.pt", threshold := JNum.float (1/2) }

/-- A store holding one model for domain `alpha` and none for any other domain. -/
def storeW : AMSDataStore :=
  { root_path := "/root/ams", candidate_path := "/root/ams/candidates",
    search := fun n => if n = "alpha" then [mW] else [] }

/-- An ML description whose positional argument references an unknown key. -/
def descrBad : MLDescr :=
  { domain_name := "alpha", name := "train",
    cli := { executable := "mltrain", stdout := Option.none, stderr := Option.none,
             cli_args := some [[FmtTok.field "NOT_A_KEY"]],
             cli_kwargs := some [] },
    resources := AMSJobResources.to_dict rW, ams_log := Option.none }

/-- An ML description whose templates reference only `AMS_STORE_PATH`. -/
def descrGood : MLDescr :=
  { domain_name := "alpha", name := "train",
    cli := { executable := "mltrain", stdout := Option.none, stderr := Option.none,
             cli_args := some [[FmtTok.field "AMS_STORE_PATH", FmtTok.lit "/data"]],
             cli_kwargs := some [("--db", CliVal.s [FmtTok.field "AMS_STORE_PATH"]),
                                 ("--n", CliVal.v (PyVal.int 4))] },
    resources := AMSJobResources.to_dict rW, ams_log := Option.none }

/-- The ML job produced by `from_descr` on `storeW` and `descrGood`. -/
def mljW : AMSMLJob :=
  { domain := "alpha",
    job := { name := "train", executable := "mltrain", environ := Option.none,
             resources := some rW, stdout := Option.none, stderr := Option.none,
             ams_log := false, is_mpi := false,
             cli_args := [PyVal.str "/root/ams/data"],
             cli_kwargs := [("--db", PyVal.str "/root/ams"), ("--n", PyVal.int 4)] } }

/-!
Theorems. Each claim of the specification review is settled below; shared
lemmas precede the claim theorems.
-/

/-- Appending stringified positional arguments one by one equals appending the
stringified list. -/
theorem foldl_append_pyStr (l : List PyVal) :
    ∀ acc : List String, l.foldl (fun cmd a => cmd ++ [a.pyStr]) acc
      = acc ++ l.map PyVal.pyStr := by
  induction l with
  | nil => intro acc; simp
  | cons x xs ih => intro acc; simp [List.foldl, ih]

/-- Appending keyword pairs one by one equals appending the flattened pair list. -/
theorem foldl_append_kw (l : List (String × PyVal)) :
    ∀ acc : List String, l.foldl (fun cmd kv => (cmd ++ [kv.1]) ++ [kv.2.pyStr]) acc
      = acc ++ l.flatMap (fun kv => [kv.1, kv.2.pyStr]) := by
  induction l with
  | nil => intro acc; simp
  | cons x xs ih => intro acc; rw [List.foldl_cons, ih]; simp

/-- A resource spec reconstructs exactly from its own dictionary. -/
theorem resources_roundtrip (r : AMSJobResources) :
    AMSJobResources.of_dict r.to_dict = Except.ok r := by
  obtain ⟨n, t, c, e, g⟩ := r
  cases e <;> cases g <;> rfl

/-- C6: `constuct_cli_cmd` returns the executable, then each flag immediately
followed by its stringified value in the order supplied, then the stringified
positional arguments in order; it is a pure function. -/
theorem claim_C6_command_builder (executable : String) (args : List PyVal)
    (kwargs : List (String × PyVal)) :
    constuct_cli_cmd executable args kwargs
      = [executable] ++ kwargs.flatMap (fun kv => [kv.1, kv.2.pyStr])
          ++ args.map PyVal.pyStr := by
  show args.foldl (fun cmd a => cmd ++ [a.pyStr])
      (kwargs.foldl (fun cmd kv => (cmd ++ [kv.1]) ++ [kv.2.pyStr]) [executable]) = _
  rw [foldl_append_pyStr, foldl_append_kw]

/-- C8 counterexample: a dict with integer keys and values is not a
string-to-string mapping, yet the environ setter accepts it — the setter checks
only the container type, never the entries. -/
theorem claim_C8_counterexample :
    isNullOrStrStrMapping (EnvValue.pydict [(PyVal.int 1, PyVal.int 2)]) = false
    ∧ exOk (environ_set (EnvValue.pydict [(PyVal.int 1, PyVal.int 2)])) = true := by
  exact ⟨rfl, rfl⟩

/-- C8 (amended): the environ setter succeeds exactly when the value is null,
a dict (with no validation of its entries), or an `os.environ`-like mapping;
every other type is rejected with a `RuntimeError`. -/
theorem claim_C8_environ_setter (v : EnvValue) :
    exOk (environ_set v) = acceptedEnvShape v
    ∧ ∀ t, environ_set (EnvValue.other t)
        = Except.error (PyError.runtimeError
            ("Unknwon type " ++ t ++ " to set job environment")) := by
  refine ⟨?_, fun t => rfl⟩
  cases v <;> rfl

/-- C10: `AMSJob.to_dict` succeeds exactly when the job has a resource spec;
with `resources = None` it fails by dereferencing the null resource spec. -/
theorem claim_C10_to_dict_requires_resources (j : AMSJob) :
    exOk (AMSJob.to_dict j) = j.resources.isSome := by
  cases h : j.resources <;> simp [AMSJob.to_dict, h, exOk]

/-- Bind on `Except` with an error on the left is that error. -/
theorem error_bind {α β : Type} (e : PyError) (f : α → Except PyError β) :
    (Except.error e >>= f : Except PyError β) = Except.error e := rfl

/-- Bind on `Except` with a success on the left applies the continuation. -/
theorem ok_bind {α β : Type} (a : α) (f : α → Except PyError β) :
    (Except.ok a >>= f : Except PyError β) = f a := rfl

/-- A successful bind factors into a successful step and continuation. -/
theorem exBind_ok {α β : Type} {e : Except PyError α} {f : α → Except PyError β} {b : β}
    (h : e >>= f = Except.ok b) : ∃ a, e = Except.ok a ∧ f a = Except.ok b := by
  cases e with
  | error err => exact absurd h (by simp [error_bind])
  | ok a => exact ⟨a, rfl, h⟩

/-- A job built by `AMSJob.__init__` with `environ=None` stores a `None`
environment. -/
theorem init_environ_none (n e : String)
    (res : Option (AMSJobResources ⊕ List (String × PyVal)))
    (so se : Option String) (al im : Bool) (ca : Option (List PyVal))
    (ck : Option (List (String × PyVal))) (j : AMSJob)
    (h : AMSJob.init n e EnvValue.pynone res so se al im ca ck = Except.ok j) :
    j.environ = Option.none := by
  simp only [AMSJob.init] at h
  obtain ⟨r2, hr2, h⟩ := exBind_ok h
  obtain ⟨env, henv, h⟩ := exBind_ok h
  have h2 : Option.none = env := by injection henv
  injection h with h3
  rw [← h3]
  exact h2.symm

/-- C1 counterexample: a job with `is_mpi = true` round-trips to a job with
`is_mpi = false` — `to_dict` never serializes `is_mpi` (nor `ams_log` nor
`environ`), and `from_dict` resets them to the constructor defaults. -/
theorem claim_C1_counterexample :
    jC1.is_mpi = true
    ∧ (AMSJob.roundtrip jC1).map AMSJob.is_mpi = Except.ok false := by
  exact ⟨rfl, rfl⟩

/-- C1 (amended): `AMSJobResources` round-trips exactly through
`to_dict`; an `AMSJob` with a resource spec round-trips losslessly in name,
executable, stdout, stderr, cli_args, cli_kwargs and the nested resource
fields, while `environ`, `ams_log` and `is_mpi` are reset to the constructor
defaults. -/
theorem claim_C1_roundtrip :
    (∀ r : AMSJobResources, AMSJobResources.of_dict r.to_dict = Except.ok r)
    ∧ ∀ (j : AMSJob) (r : AMSJobResources), j.resources = some r →
        AMSJob.roundtrip j = Except.ok
          { name := j.name, executable := j.executable, environ := some [],
            resources := some r, stdout := j.stdout, stderr := j.stderr,
            ams_log := false, is_mpi := false,
            cli_args := j.cli_args, cli_kwargs := j.cli_kwargs } := by
  refine ⟨resources_roundtrip, ?_⟩
  intro j r h
  have h1 : AMSJob.to_dict j = Except.ok
      { name := j.name, executable := j.executable, stdout := j.stdout, stderr := j.stderr,
        cli_args := j.cli_args, cli_kwargs := j.cli_kwargs, resources := r.to_dict } := by
    simp [AMSJob.to_dict, h]
  simp only [AMSJob.roundtrip, h1, Except.bind]
  simp only [AMSJob.from_dict, AMSJob.init, resources_arg, resources_roundtrip,
    Except.map, ok_bind, environ_set]
  rfl

/-- C1 witness: the round-trip theorems evaluated at a concrete resource spec
and a concrete job. -/
theorem claim_C1_witness :
    AMSJobResources.of_dict (AMSJobResources.to_dict rW) = Except.ok rW
    ∧ AMSJob.roundtrip jW = Except.ok
        { name := "j", executable := "run", environ := some [],
          resources := some rW, stdout := Option.none, stderr := Option.none,
          ams_log := false, is_mpi := false, cli_args := [], cli_kwargs := [] } :=
  ⟨claim_C1_roundtrip.1 rW, claim_C1_roundtrip.2 jW rW rfl⟩

/-- C2 at the failing input: a job that is not MPI-flagged still gets the
`mpi=spectrum` shell option, because the source guards with
`if self._is_mpi is not None` on a bool that is never `None`. -/
theorem claim_C2_mpi_option_always_set :
    jC2.is_mpi = false
    ∧ specShellOptions (AMSJob.to_flux_jobspec "/work" jC2)
        = [("mpi", "spectrum"), ("gpu-affinity", "per-task")] := by
  exact ⟨rfl, rfl⟩

/-- C5 counterexample: with a `None` resource spec, `to_flux_jobspec` raises a
plain `AttributeError` from dereferencing the missing spec — not a dedicated
`ResourceError` type. -/
theorem claim_C5_counterexample :
    AMSJob.to_flux_jobspec "/work" jC5
      = Except.error (PyError.attributeError "NoneType object has no attribute tasks_per_node")
    ∧ PyError.typeName
        (PyError.attributeError "NoneType object has no attribute tasks_per_node")
        ≠ "ResourceError" := by
  exact ⟨rfl, by decide⟩

/-- C5 (amended): for every job whose resource spec is `None`,
`to_flux_jobspec` fails — with a generic `AttributeError` from dereferencing
the null resource spec rather than a dedicated typed error. -/
theorem claim_C5_null_resources_fail (cwd : String) (j : AMSJob)
    (h : j.resources = Option.none) :
    AMSJob.to_flux_jobspec cwd j
      = Except.error (PyError.attributeError "NoneType object has no attribute tasks_per_node")
    ∧ PyError.typeName
        (PyError.attributeError "NoneType object has no attribute tasks_per_node")
        = "AttributeError" := by
  refine ⟨?_, rfl⟩
  simp [AMSJob.to_flux_jobspec, h]

/-- C5 witness: the amended theorem at a concrete job without resources. -/
theorem claim_C5_witness :
    AMSJob.to_flux_jobspec "/w" jC5
      = Except.error (PyError.attributeError "NoneType object has no attribute tasks_per_node")
    ∧ PyError.typeName
        (PyError.attributeError "NoneType object has no attribute tasks_per_node")
        = "AttributeError" :=
  claim_C5_null_resources_fail "/w" jC5 rfl

/-- C9: `None` is accepted as an environment by the setter, the ML job factory
builds its jobs with a `None` environment, and `to_flux_jobspec` on a job with
a valid resource spec but `None` environment raises a `TypeError` when copying
the environment into the spec. -/
theorem claim_C9_null_environ_typeerror :
    environ_set EnvValue.pynone = Except.ok Option.none
    ∧ (∀ store descr mlj, AMSMLJob.from_descr store descr = Except.ok mlj →
        mlj.job.environ = Option.none)
    ∧ (∀ (cwd : String) (j : AMSJob) (r : AMSJobResources),
        j.resources = some r → j.environ = Option.none →
        AMSJob.to_flux_jobspec cwd j
          = Except.error (PyError.typeError "NoneType object is not iterable")) := by
  refine ⟨rfl, ?_, ?_⟩
  · intro store descr mlj h
    simp only [AMSMLJob.from_descr] at h
    obtain ⟨res, hres, h⟩ := exBind_ok h
    obtain ⟨kw, hkw, h⟩ := exBind_ok h
    obtain ⟨ar, har, h⟩ := exBind_ok h
    obtain ⟨job, hjob, h⟩ := exBind_ok h
    injection h with h2
    rw [← h2]
    exact init_environ_none _ _ _ _ _ _ _ _ _ _ hjob
  · intro cwd j r hr he
    simp [AMSJob.to_flux_jobspec, hr, he]

/-- C9 witness: the theorem applied at a concrete job with resources present
and environment `None`. -/
theorem claim_C9_witness :
    AMSJob.to_flux_jobspec "/w" jC9
      = Except.error (PyError.typeError "NoneType object is not iterable") :=
  claim_C9_null_environ_typeerror.2.2 "/w" jC9 rW rfl rfl

/-- C3 counterexample: `AMSFSTempStageJob` constructed with a pruning module
path that exists but no pruning class succeeds — it never validates
`prune_class`, contradicting the claim that every `StageJob` variant fails in
that case. -/
theorem claim_C3_counterexample :
    exOk (AMSFSTempStageJob_init (fun _ => true) "/store" "/src" "/dest"
      (Sum.inl rW) EnvValue.pynone Option.none Option.none
      (some "prune.py") Option.none [] []) = true := by
  rfl

/-- C3 (amended): `AMSStageJob` (and its filesystem/network variants, which
delegate to it) fails construction with an `AssertionError` when the pruning
module path does not exist or when no pruning class accompanies it — the
failure occurs after the base CLI flags are assembled, not before;
`AMSFSTempStageJob` checks only that the path exists and accepts a missing
pruning class. -/
theorem claim_C3_prune_validation :
    (∀ (fsE : String → Bool) (resources : AMSJobResources ⊕ List (String × PyVal))
        (dest pdb : String) (st : Bool) (dbt pol : String) (p : String)
        (pc : Option String) (environ : EnvValue) (so se : Option String)
        (ca : List PyVal) (ck : List (String × PyVal)),
      (fsE p = false ∨ pc = Option.none) →
      ∃ msg, AMSStageJob_init fsE resources dest pdb st dbt pol (some p) pc
        environ so se ca ck = Except.error (PyError.assertionError msg))
    ∧ (∀ (fsE : String → Bool) (sd srcd dd : String)
        (resources : AMSJobResources ⊕ List (String × PyVal))
        (environ : EnvValue) (so se : Option String) (p : String)
        (pc : Option String) (ca : List PyVal) (ck : List (String × PyVal)),
      fsE p = false →
      AMSFSTempStageJob_init fsE sd srcd dd resources environ so se (some p) pc ca ck
        = Except.error (PyError.assertionError "Module path to user pruner does not exist")) := by
  constructor
  · intro fsE resources dest pdb st dbt pol p pc environ so se ca ck h
    cases hf : fsE p with
    | false =>
        exact ⟨"Module path to user pruner does not exist", by
          simp [AMSStageJob_init, hf, error_bind]⟩
    | true =>
        rcases h with h | h
        · rw [hf] at h; exact absurd h (by simp)
        · subst h
          exact ⟨"When defining a pruning module please define the class", by
            simp [AMSStageJob_init, hf, error_bind]⟩
  · intro fsE sd srcd dd resources environ so se p pc ca ck h
    simp [AMSFSTempStageJob_init, h, error_bind]

/-- C3 witness: both assertion failures of `AMSStageJob` and the path-existence
failure of `AMSFSTempStageJob` at concrete inputs. -/
theorem claim_C3_witness :
    (∃ msg, AMSStageJob_init (fun _ => false) (Sum.inl rW) "/d" "/p" true "dhdf5" "process"
      (some "prune.py") (some "MyPruner") EnvValue.pynone Option.none Option.none [] []
        = Except.error (PyError.assertionError msg))
    ∧ AMSFSTempStageJob_init (fun _ => false) "/s" "/src" "/d" (Sum.inl rW)
        EnvValue.pynone Option.none Option.none (some "prune.py") Option.none [] []
        = Except.error (PyError.assertionError "Module path to user pruner does not exist") :=
  ⟨claim_C3_prune_validation.1 (fun _ => false) (Sum.inl rW) "/d" "/p" true "dhdf5" "process"
      "prune.py" (some "MyPruner") EnvValue.pynone Option.none Option.none [] [] (Or.inl rfl),
   claim_C3_prune_validation.2 (fun _ => false) "/s" "/src" "/d" (Sum.inl rW)
      EnvValue.pynone Option.none Option.none "prune.py" Option.none [] [] rfl⟩

/-- C4: when the store returns one model for the first domain and none for the
second, the AMS-Objects artifact has exactly two `ml_models` entries — the
second being the `uq_type="random"`, `model_path=""`, `threshold=1`
data-gathering placeholder — and a two-entry `domain_models` map binding each
domain name to its model key. -/
theorem claim_C4_domain_models (store : AMSDataStore) (rmq stage_dir : Option String)
    (d1 d2 : String) (m : ModelRecord)
    (h1 : store.search d1 = [m]) (h2 : store.search d2 = []) :
    (generate_ams_object store rmq stage_dir [d1, d2]).ml_models
      = [("model_0", { uq_type := m.uq_type, model_path := m.file, uq_aggregate := "mean",
                       threshold := m.threshold, db_label := d1 }),
         ("model_1", { uq_type := "random", model_path := "", uq_aggregate := "mean",
                       threshold := JNum.int 1, db_label := d2 })]
    ∧ (generate_ams_object store rmq stage_dir [d1, d2]).domain_models
      = [(d1, "model_0"), (d2, "model_1")] := by
  refine ⟨?_, ?_⟩ <;>
    simp [generate_ams_object, mk_model_entry, model_key, h1, h2, List.enum,
      List.enumFrom] <;>
    exact ⟨rfl, rfl⟩

/-- C4 witness: the theorem at a concrete store holding a model with
`uq_type="faiss"`, `file="m.pt"`, `threshold=0.5` for domain `alpha` and no
model for domain `beta`. -/
theorem claim_C4_witness :
    (generate_ams_object storeW Option.none Option.none ["alpha", "beta"]).ml_models
      = [("model_0", { uq_type := "faiss", model_path := "m.pt", uq_aggregate := "mean",
                       threshold := JNum.float (1/2), db_label := "alpha" }),
         ("model_1", { uq_type := "random", model_path := "", uq_aggregate := "mean",
                       threshold := JNum.int 1, db_label := "beta" })]
    ∧ (generate_ams_object storeW Option.none Option.none ["alpha", "beta"]).domain_models
      = [("alpha", "model_0"), ("beta", "model_1")] :=
  claim_C4_domain_models storeW Option.none Option.none "alpha" "beta" mW rfl rfl

/-- A format string referencing an unknown field makes `pyFormat` raise a
`KeyError`. -/
theorem pyFormat_err_of_unknown (ctx : List (String × String)) :
    ∀ t : List FmtTok, referencesUnknown t ctx = true →
      ∃ k, pyFormat t ctx = Except.error (PyError.keyError k) := by
  intro t
  induction t with
  | nil => intro h; simp [referencesUnknown] at h
  | cons tok rest ih =>
      intro h
      cases tok with
      | lit s =>
          have h2 : referencesUnknown rest ctx = true := by
            simpa [referencesUnknown] using h
          obtain ⟨k, hk⟩ := ih h2
          exact ⟨k, by simp [pyFormat, hk, Except.map]⟩
      | field k =>
          cases hl : ctx.lookup k with
          | none => exact ⟨k, by simp [pyFormat, hl]⟩
          | some v =>
              have h2 : referencesUnknown rest ctx = true := by
                simpa [referencesUnknown, hl] using h
              obtain ⟨k2, hk⟩ := ih h2
              exact ⟨k2, by simp [pyFormat, hl, hk, Except.map]⟩

/-- A positional-argument list containing a template with an unknown field
makes `formatArgs` fail. -/
theorem formatArgs_err (ctx : List (String × String)) :
    ∀ ts : List (List FmtTok), (∃ t ∈ ts, referencesUnknown t ctx = true) →
      exOk (formatArgs ts ctx) = false := by
  intro ts
  induction ts with
  | nil => rintro ⟨t, ht, _⟩; simp at ht
  | cons t0 rest ih =>
      rintro ⟨t, ht, hu⟩
      rcases List.mem_cons.mp ht with h | h
      · subst h
        obtain ⟨k, hk⟩ := pyFormat_err_of_unknown ctx t hu
        simp [formatArgs, hk, error_bind, exOk]
      · cases hp : pyFormat t0 ctx with
        | error e => simp [formatArgs, hp, error_bind, exOk]
        | ok s =>
            have hrest := ih ⟨t, h, hu⟩
            cases hr : formatArgs rest ctx with
            | error e2 => simp [formatArgs, hp, hr, ok_bind, error_bind, exOk]
            | ok out => rw [hr] at hrest; simp [exOk] at hrest

/-- A successful `formatArgs` returns exactly the formatted templates. -/
theorem formatArgs_ok (ctx : List (String × String)) :
    ∀ (ts : List (List FmtTok)) (out : List PyVal), formatArgs ts ctx = Except.ok out →
      out = ts.map (fun t => PyVal.str (pyFormatD t ctx)) := by
  intro ts
  induction ts with
  | nil =>
      intro out h
      simp only [formatArgs] at h
      injection h with h2
      simp [← h2]
  | cons t0 rest ih =>
      intro out h
      simp only [formatArgs] at h
      obtain ⟨s, hs, h⟩ := exBind_ok h
      obtain ⟨more, hm, h⟩ := exBind_ok h
      injection h with h2
      subst h2
      have hd : pyFormatD t0 ctx = s := by simp [pyFormatD, hs]
      rw [List.map_cons, ← ih more hm, hd]

/-- A keyword dictionary containing a string value with an unknown field makes
`formatKwargs` fail. -/
theorem formatKwargs_err (ctx : List (String × String)) :
    ∀ kvs : List (String × CliVal),
      (∃ k t, (k, CliVal.s t) ∈ kvs ∧ referencesUnknown t ctx = true) →
      exOk (formatKwargs kvs ctx) = false := by
  intro kvs
  induction kvs with
  | nil => rintro ⟨k, t, ht, _⟩; simp at ht
  | cons kv0 rest ih =>
      rintro ⟨k, t, ht, hu⟩
      rcases List.mem_cons.mp ht with h | h
      · obtain ⟨k0, cv0⟩ := kv0
        injection h.symm with hk0 hcv0
        subst hcv0
        obtain ⟨k2, hk⟩ := pyFormat_err_of_unknown ctx t hu
        simp [formatKwargs, hk, error_bind, exOk]
      · obtain ⟨k0, cv0⟩ := kv0
        have hrest := ih ⟨k, t, h, hu⟩
        cases cv0 with
        | s t0 =>
            cases hp : pyFormat t0 ctx with
            | error e => simp [formatKwargs, hp, error_bind, exOk]
            | ok s0 =>
                cases hr : formatKwargs rest ctx with
                | error e2 => simp [formatKwargs, hp, hr, ok_bind, error_bind, exOk]
                | ok out => rw [hr] at hrest; simp [exOk] at hrest
        | v x =>
            cases hr : formatKwargs rest ctx with
            | error e2 => simp [formatKwargs, hr, error_bind, exOk]
            | ok out => rw [hr] at hrest; simp [exOk] at hrest

/-- A successful `formatKwargs` keeps every key and substitutes every
string-valued entry. -/
theorem formatKwargs_ok (ctx : List (String × String)) :
    ∀ (kvs : List (String × CliVal)) (out : List (String × PyVal)),
      formatKwargs kvs ctx = Except.ok out →
      out = kvs.map (fun kv => (kv.1, substVal ctx kv.2)) := by
  intro kvs
  induction kvs with
  | nil =>
      intro out h
      simp only [formatKwargs] at h
      injection h with h2
      simp [← h2]
  | cons kv0 rest ih =>
      intro out h
      obtain ⟨k0, cv0⟩ := kv0
      cases cv0 with
      | s t0 =>
          simp only [formatKwargs] at h
          obtain ⟨s0, hs, h⟩ := exBind_ok h
          obtain ⟨more, hm, h⟩ := exBind_ok h
          injection h with h2
          subst h2
          have hd : pyFormatD t0 ctx = s0 := by simp [pyFormatD, hs]
          rw [List.map_cons, ← ih more hm]
          simp [substVal, hd]
      | v x =>
          simp only [formatKwargs] at h
          obtain ⟨more, hm, h⟩ := exBind_ok h
          injection h with h2
          subst h2
          rw [List.map_cons, ← ih more hm]
          simp [substVal]

/-- A job built by `AMSJob.__init__` stores the supplied CLI arguments (with
`None` replaced by empty containers). -/
theorem init_cli_fields (n e : String) (env : EnvValue)
    (res : Option (AMSJobResources ⊕ List (String × PyVal))) (so se : Option String)
    (al im : Bool) (ca : Option (List PyVal)) (ck : Option (List (String × PyVal)))
    (j : AMSJob) (h : AMSJob.init n e env res so se al im ca ck = Except.ok j) :
    j.cli_args = ca.getD [] ∧ j.cli_kwargs = ck.getD [] := by
  simp only [AMSJob.init] at h
  obtain ⟨r2, hr2, h⟩ := exBind_ok h
  obtain ⟨env2, henv2, h⟩ := exBind_ok h
  injection h with h2
  rw [← h2]
  exact ⟨rfl, rfl⟩

/-- C7: the ML job factory substitutes the store-derived context (binding
`AMS_STORE_PATH` to the store root path) into every string-valued keyword
value and every positional argument; a template referencing a key outside the
context makes construction fail, and a successful construction carries only
fully substituted arguments. -/
theorem claim_C7_template_substitution (store : AMSDataStore) (descr : MLDescr)
    (ts : List (List FmtTok)) (kvs : List (String × CliVal))
    (hargs : descr.cli.cli_args = some ts) (hkw : descr.cli.cli_kwargs = some kvs) :
    (((∃ t ∈ ts, referencesUnknown t (generate_formatting store) = true)
      ∨ (∃ k t, (k, CliVal.s t) ∈ kvs
          ∧ referencesUnknown t (generate_formatting store) = true))
     → exOk (AMSMLJob.from_descr store descr) = false)
    ∧ ∀ mlj, AMSMLJob.from_descr store descr = Except.ok mlj →
        mlj.job.cli_args
          = ts.map (fun t => PyVal.str (pyFormatD t (generate_formatting store)))
        ∧ mlj.job.cli_kwargs
          = kvs.map (fun kv => (kv.1, substVal (generate_formatting store) kv.2)) := by
  constructor
  · intro hbad
    cases hres : AMSJobResources.of_dict descr.resources with
    | error e => simp [AMSMLJob.from_descr, hres, error_bind, exOk]
    | ok res =>
        rcases hbad with hb | hb
        · cases hkwres : formatKwargs kvs (generate_formatting store) with
          | error e =>
              simp [AMSMLJob.from_descr, hres, hkw, kwargs_step, hkwres, Except.map,
                ok_bind, error_bind, exOk]
          | ok kw =>
              have ha := formatArgs_err (generate_formatting store) ts hb
              cases hares : formatArgs ts (generate_formatting store) with
              | error e =>
                  simp [AMSMLJob.from_descr, hres, hkw, hargs, kwargs_step, args_step,
                    hkwres, hares, Except.map, ok_bind, error_bind, exOk]
              | ok out => rw [hares] at ha; simp [exOk] at ha
        · have hkerr := formatKwargs_err (generate_formatting store) kvs hb
          cases hkwres : formatKwargs kvs (generate_formatting store) with
          | error e =>
              simp [AMSMLJob.from_descr, hres, hkw, kwargs_step, hkwres, Except.map,
                ok_bind, error_bind, exOk]
          | ok kw => rw [hkwres] at hkerr; simp [exOk] at hkerr
  · intro mlj h
    simp only [AMSMLJob.from_descr] at h
    obtain ⟨res, hres, h⟩ := exBind_ok h
    obtain ⟨kwO, hkwO, h⟩ := exBind_ok h
    obtain ⟨arO, harO, h⟩ := exBind_ok h
    obtain ⟨job, hjob, h⟩ := exBind_ok h
    injection h with h2
    rw [hkw] at hkwO
    rw [hargs] at harO
    simp only [kwargs_step] at hkwO
    simp only [args_step] at harO
    cases hfk : formatKwargs kvs (generate_formatting store) with
    | error e => rw [hfk] at hkwO; simp [Except.map] at hkwO
    | ok kwout =>
        cases hfa : formatArgs ts (generate_formatting store) with
        | error e => rw [hfa] at harO; simp [Except.map] at harO
        | ok arout =>
            rw [hfk] at hkwO
            rw [hfa] at harO
            simp only [Except.map] at hkwO harO
            injection hkwO with hkwO2
            injection harO with harO2
            obtain ⟨hca, hck⟩ := init_cli_fields _ _ _ _ _ _ _ _ _ _ _ hjob
            rw [← h2]
            refine ⟨?_, ?_⟩
            · show job.cli_args = _
              rw [hca, ← harO2]
              show arout = _
              exact formatArgs_ok (generate_formatting store) ts arout hfa
            · show job.cli_kwargs = _
              rw [hck, ← hkwO2]
              show kwout = _
              exact formatKwargs_ok (generate_formatting store) kvs kwout hfk

/-- C7 witness: construction fails on a description whose positional argument
references an unknown key, and succeeds with fully substituted arguments on a
description referencing only `AMS_STORE_PATH`. -/
theorem claim_C7_witness :
    exOk (AMSMLJob.from_descr storeW descrBad) = false
    ∧ (mljW.job.cli_args = [PyVal.str "/root/ams/data"]
       ∧ mljW.job.cli_kwargs = [("--db", PyVal.str "/root/ams"), ("--n", PyVal.int 4)]) :=
  ⟨(claim_C7_template_substitution storeW descrBad [[FmtTok.field "NOT_A_KEY"]] []
      rfl rfl).1 (Or.inl ⟨[FmtTok.field "NOT_A_KEY"], by simp, rfl⟩),
   (claim_C7_template_substitution storeW descrGood
      [[FmtTok.field "AMS_STORE_PATH", FmtTok.lit "/data"]]
      [("--db", CliVal.s [FmtTok.field "AMS_STORE_PATH"]), ("--n", CliVal.v (PyVal.int 4))]
      rfl rfl).2 mljW rfl⟩
